import Mathlib

/-!
# Verification of the CSQLite ownership-directive bridge

The repository's single source file, `src/CSQLite/shim.h`, is:

    static inline sqlite3_destructor_type csqlite_TRANSIENT(void) {
        return SQLITE_TRANSIENT;
    }

`sqlite3.h` (the engine's header, an external collaborator) declares
`typedef void (*sqlite3_destructor_type)(void*)` together with
`SQLITE_STATIC = ((sqlite3_destructor_type)0)` and
`SQLITE_TRANSIENT = ((sqlite3_destructor_type)-1)`.

Destructor values are embedded as pointer bit patterns (`Nat`, with the cast
of a C integer to a pointer modelled as two's-complement wraparound at the
pointer width).  A call to the accessor is embedded state-passing over an
arbitrary type of program states, with an explicit (never used) error
channel, a trace of the observable destructor-value operations the body
performs, and a count of executed statements.  The storage engine's binding
operation, which is not part of the repository, is modelled from the spec's
description of the consumed interface.
-/

namespace CSQLite

/-- Width in bits of a pointer on the target platform. -/
def wordBits : Nat := 64

/-- Bit pattern of a C integer cast to a pointer-sized value: two's-complement
wraparound at `wordBits` bits, as in the cast `(sqlite3_destructor_type)-1`. -/
def castToPtr (i : Int) : Nat := (i % (2 ^ wordBits : Int)).toNat

/-- The C type `sqlite3_destructor_type` (`void (*)(void*)`), embedded as the
pointer's bit pattern. -/
abbrev sqlite3_destructor_type := Nat

/-- `SQLITE_STATIC` from `sqlite3.h`: the null destructor, the spec's `Borrow`
directive, `(sqlite3_destructor_type)0`. -/
def SQLITE_STATIC : sqlite3_destructor_type := castToPtr 0

/-- `SQLITE_TRANSIENT` from `sqlite3.h`: the `CopyNow` sentinel,
`(sqlite3_destructor_type)-1`. -/
def SQLITE_TRANSIENT : sqlite3_destructor_type := castToPtr (-1)

/-- The value computed by the body of `csqlite_TRANSIENT(void)`, which is the
single statement `return SQLITE_TRANSIENT;`. -/
def csqlite_TRANSIENT : sqlite3_destructor_type := SQLITE_TRANSIENT

/-- Observable operations on destructor values that a function body could
perform: invoking a destructor value as a function, or comparing two
destructor values for order.  The shim's body performs neither. -/
inductive Event where
  | invokeDestructor (addr : sqlite3_destructor_type) (arg : Nat)
  | compareForOrder (a b : sqlite3_destructor_type)
deriving DecidableEq

/-- Outcome of one completed call: the return value, the program state after
the call, the trace of observable events, and the number of statements the
body executed. -/
structure CallOutcome (S : Type) where
  ret : sqlite3_destructor_type
  state : S
  events : List Event
  steps : Nat

/-- State-passing embedding of one call to `csqlite_TRANSIENT`: the body is
the single statement `return SQLITE_TRANSIENT;`.  It reads a compile-time
constant, leaves the program state `σ` untouched, performs no observable
event, never produces `Except.error`, and executes one statement. -/
def csqlite_TRANSIENT_run {S : Type} (σ : S) : Except Unit (CallOutcome S) :=
  Except.ok ⟨csqlite_TRANSIENT, σ, [], 1⟩

/-- Return value of a call, `none` if the call failed. -/
def retOf {S : Type} : Except Unit (CallOutcome S) → Option sqlite3_destructor_type
  | Except.ok out => some out.ret
  | Except.error _ => none

/-- Program state after a call, `none` if the call failed. -/
def stateOf {S : Type} : Except Unit (CallOutcome S) → Option S
  | Except.ok out => some out.state
  | Except.error _ => none

/-- Event trace of a call, `none` if the call failed. -/
def eventsOf {S : Type} : Except Unit (CallOutcome S) → Option (List Event)
  | Except.ok out => some out.events
  | Except.error _ => none

/-- Execute one call to the accessor per entry of `sched` (each entry names a
caller), threading the shared program state through the interleaving in the
given order; each caller records the value its own call returned.  Every
interleaving of concurrent calls to the accessor is such a sequence, because
each call consists of a single atomic read. -/
def runSchedule {S : Type} (σ : S) :
    List Nat → List (Nat × sqlite3_destructor_type) × S
  | [] => ([], σ)
  | c :: cs =>
      match csqlite_TRANSIENT_run σ with
      | Except.ok out =>
          let rest := runSchedule out.state cs
          ((c, out.ret) :: rest.1, rest.2)
      | Except.error _ => ([], σ)

/-- A bound value's bytes. -/
abbrev Buffer := List Nat

/-- Modelled from the spec: the caller's memory, not part of the repository
(the storage engine and its callers are external collaborators, spec S6) —
each buffer id maps to its current contents, `none` once freed. -/
def Heap : Type := Nat → Option Buffer

/-- Freeing a caller buffer. -/
def Heap.free (h : Heap) (id : Nat) : Heap :=
  fun j => if j = id then none else h j

/-- Overwriting a caller buffer in place. -/
def Heap.overwrite (h : Heap) (id : Nat) (b : Buffer) : Heap :=
  fun j => if j = id then some b else h j

/-- Modelled from the spec (S3): how the engine retains a bound value after
the binding call returns — its own private copy (`CopyNow`), a reference to
caller memory (`Borrow`), or caller memory it now owns together with the
cleanup callback (`OwnedCleanup`). -/
inductive BoundCell where
  | copied (bytes : Buffer)
  | borrowed (bufId : Nat)
  | owned (bufId : Nat) (callback : sqlite3_destructor_type)
deriving DecidableEq

/-- Modelled from the spec (S6): a prepared statement's bound-parameter
slots. -/
structure Stmt where
  params : List (Nat × BoundCell)
deriving DecidableEq

/-- A prepared statement with no parameter bound yet. -/
def emptyStmt : Stmt := ⟨[]⟩

/-- Modelled from the spec (S6), an external collaborator not in the
repository: the engine's binding operation `bind(statement_handle,
parameter_index, value_bytes, ownership_directive) -> result_code`.  The
`CopyNow` sentinel makes the engine copy the bytes before the call returns;
the null destructor stores a reference to the caller's buffer; any other
value is an `OwnedCleanup` callback address.  Binding a freed buffer fails. -/
def bindParam (s : Stmt) (h : Heap) (idx bufId : Nat)
    (destructor : sqlite3_destructor_type) : Option Stmt :=
  match h bufId with
  | none => none
  | some bytes =>
      let cell :=
        if destructor = SQLITE_TRANSIENT then BoundCell.copied bytes
        else if destructor = SQLITE_STATIC then BoundCell.borrowed bufId
        else BoundCell.owned bufId destructor
      some ⟨(idx, cell) :: s.params.filter (fun p => p.1 != idx)⟩

/-- Modelled from the spec (S8): reading a bound value back from the engine —
a copied cell yields the engine's private copy, while a borrowed or owned
cell reads whatever the referenced caller memory currently holds. -/
def readBack (s : Stmt) (h : Heap) (idx : Nat) : Option Buffer :=
  match s.params.find? (fun p => p.1 == idx) with
  | some (_, BoundCell.copied b) => some b
  | some (_, BoundCell.borrowed id) => h id
  | some (_, BoundCell.owned id _) => h id
  | none => none

/-- The bytes of the ASCII string used by the spec's round-trip scenario. -/
def helloBytes : Buffer := [104, 101, 108, 108, 111]

/-- A caller heap holding those bytes in buffer `0` and nothing else. -/
def helloHeap : Heap := fun j => if j = 0 then some helloBytes else none

/-- Modelled from the spec (S4.1): the sentinel is built from "a reserved,
engine-recognized pointer value"; the address of a real destructor function
is a nonzero pointer-sized code address distinct from that reserved value. -/
def isRealDestructorAddr (a : sqlite3_destructor_type) : Bool :=
  decide (a < 2 ^ wordBits) && (a != 0) && (a != castToPtr (-1))

theorem transient_eq : csqlite_TRANSIENT = 2 ^ wordBits - 1 := by decide

/-- Claim C1: `csqlite_TRANSIENT()` returns exactly the engine's process-wide
`SQLITE_TRANSIENT` sentinel, and the returned value has the very type
(`sqlite3_destructor_type`, the type of `bindParam`'s ownership-directive
argument) that the binding operation expects: passing it to the binding call
is well-typed and selects the `CopyNow` behaviour. -/
theorem csqlite_TRANSIENT_returns_sentinel :
    csqlite_TRANSIENT = SQLITE_TRANSIENT ∧
    (∀ {S : Type} (σ : S),
      retOf (csqlite_TRANSIENT_run σ) = some SQLITE_TRANSIENT) ∧
    bindParam emptyStmt helloHeap 1 0 csqlite_TRANSIENT
      = some ⟨[(1, BoundCell.copied helloBytes)]⟩ := by
  refine ⟨rfl, fun σ => rfl, ?_⟩
  decide

/-- Claim C2: determinism and referential stability — any two calls, from any
two program states and in any order, return equal values. -/
theorem csqlite_TRANSIENT_deterministic :
    ∀ {S T : Type} (σ₁ : S) (σ₂ : T),
      retOf (csqlite_TRANSIENT_run σ₁) = retOf (csqlite_TRANSIENT_run σ₂) := by
  intro S T σ₁ σ₂
  rfl

/-- Claim C3: the accessor cannot fail — from every program state the call
returns a value through the `Except.ok` channel; no `Except.error` is ever
produced, so there is nothing to raise, catch, wrap or suppress. -/
theorem csqlite_TRANSIENT_cannot_fail :
    ∀ {S : Type} (σ : S), ∃ out, csqlite_TRANSIENT_run σ = Except.ok out := by
  intro S σ
  exact ⟨_, rfl⟩

/-- Claim C4: a call is pure and side-effect-free — every piece of observable
program state is returned unchanged, and the call produces nothing but its
return value (its event trace is empty). -/
theorem csqlite_TRANSIENT_frame :
    ∀ {S : Type} (σ : S),
      stateOf (csqlite_TRANSIENT_run σ) = some σ ∧
      eventsOf (csqlite_TRANSIENT_run σ) = some [] := by
  intro S σ
  exact ⟨rfl, rfl⟩

/-- Claim C5: the `CopyNow` directive returned by the accessor is distinct
from the `Borrow` directive (the null destructor): the returned value is not
null, and the binding call observably distinguishes the two directives. -/
theorem copyNow_ne_borrow :
    csqlite_TRANSIENT ≠ SQLITE_STATIC ∧
    csqlite_TRANSIENT ≠ 0 ∧
    bindParam emptyStmt helloHeap 1 0 csqlite_TRANSIENT
      ≠ bindParam emptyStmt helloHeap 1 0 SQLITE_STATIC := by
  refine ⟨by decide, by decide, by decide⟩

/-- Claim C6: the sentinel is a single opaque process-wide constant and not a
real function pointer — the accessor returns the same constant value from
every program state, its body never invokes the value as a function and never
compares it for ordering (its event trace is empty), and the value is not the
address of any real destructor function. -/
theorem copyNow_opaque_sentinel :
    (∀ {S : Type} (σ : S),
      retOf (csqlite_TRANSIENT_run σ) = some csqlite_TRANSIENT) ∧
    (∀ {S : Type} (σ : S),
      eventsOf (csqlite_TRANSIENT_run σ) = some ([] : List Event)) ∧
    isRealDestructorAddr csqlite_TRANSIENT = false := by
  refine ⟨fun σ => rfl, fun σ => rfl, by decide⟩

/-- Claim C7: round-trip through the engine — binding the bytes of the string
`hello` with the directive returned by the accessor and then freeing, or
overwriting, the source buffer still reads those bytes back from the engine:
the engine copied them before the binding call returned. -/
theorem copyNow_roundtrip_hello :
    ∃ s, bindParam emptyStmt helloHeap 1 0 csqlite_TRANSIENT = some s ∧
      readBack s (Heap.free helloHeap 0) 1 = some helloBytes ∧
      readBack s (Heap.overwrite helloHeap 0 [0, 0, 0, 0, 0]) 1
        = some helloBytes := by
  refine ⟨⟨[(1, BoundCell.copied helloBytes)]⟩, by decide, rfl, rfl⟩

/-- Claim C8: concurrency safety — under every schedule (any number of
callers, any interleaving order, any shared program state) every caller
receives the sentinel, the shared state comes out unchanged, and no call
fails or corrupts anything. -/
theorem csqlite_TRANSIENT_concurrent_safe :
    ∀ {S : Type} (σ : S) (sched : List Nat),
      runSchedule σ sched = (sched.map (fun c => (c, SQLITE_TRANSIENT)), σ) := by
  intro S σ sched
  induction sched with
  | nil => rfl
  | cons c cs ih => simp [runSchedule, csqlite_TRANSIENT_run, csqlite_TRANSIENT, ih]

/-- Claim C9: concrete representation — the sentinel is the integer `-1` cast
to the destructor type: the all-bits-one pointer value `2 ^ 64 - 1`, with
every one of its `wordBits` bits set; it is nonzero, differs from the null
`Borrow` directive, and differs from the address of every real destructor
function, so identity comparison against it is exact. -/
theorem copyNow_representation :
    csqlite_TRANSIENT = castToPtr (-1) ∧
    csqlite_TRANSIENT = 2 ^ wordBits - 1 ∧
    (∀ i, i < wordBits → Nat.testBit csqlite_TRANSIENT i = true) ∧
    csqlite_TRANSIENT ≠ 0 ∧
    csqlite_TRANSIENT ≠ SQLITE_STATIC ∧
    (∀ a, isRealDestructorAddr a = true → csqlite_TRANSIENT ≠ a) := by
  refine ⟨rfl, transient_eq, ?_, by decide, by decide, ?_⟩
  · intro i hi
    rw [transient_eq, Nat.testBit_two_pow_sub_one]
    exact decide_eq_true hi
  · intro a ha h
    simp only [isRealDestructorAddr, Bool.and_eq_true, bne_iff_ne,
      decide_eq_true_eq] at ha
    exact ha.2 h.symm

/-- Claim C10: totality and termination — from every program state the call
returns immediately: it succeeds and executes exactly one statement, with no
recursion, loop, allocation or input/output. -/
theorem csqlite_TRANSIENT_total :
    ∀ {S : Type} (σ : S),
      ∃ out, csqlite_TRANSIENT_run σ = Except.ok out ∧ out.steps = 1 := by
  intro S σ
  exact ⟨_, rfl, rfl⟩

end CSQLite
